import Mathlib

/-!
Shallow embedding of the Book Exchange Platform backend
(Major_Projects/Book_exchange_platform/Back-end/app.py).

Rows of the SQLite tables become structures; each Flask handler becomes a
pure function from the database state (plus the authenticated user id and
the request payload) to a result and a new database state.  Timestamp
columns (created_at, updated_at, added_at, completed_at) are omitted: no
handler modelled here branches on them.  AUTOINCREMENT ids are modelled by
explicit next-id counters.
-/

/-- A row of the `books` table.  The display-only columns cover_url,
description, isbn and rating are omitted (rating is a float; none of them
is read by the handlers modelled here). -/
structure Book where
  id : Nat
  user_id : Nat
  title : String
  author : String
  deriving DecidableEq

/-- A row of the `favorites` table (denormalized book snapshot; the
cover/description/isbn snapshot columns are omitted as unread). -/
structure Favorite where
  id : Nat
  user_id : Nat
  book_title : String
  book_author : String
  deriving DecidableEq

/-- A row of the `exchange_requests` table. -/
structure ExchangeRequest where
  id : Nat
  requester_id : Nat
  owner_id : Nat
  book_id : Nat
  status : String
  deriving DecidableEq

/-- A row of the `completed_exchanges` table. -/
structure CompletedExchange where
  id : Nat
  user1_id : Nat
  user2_id : Nat
  book_id : Nat
  deriving DecidableEq

/-- The database state touched by the handlers modelled here. -/
structure DB where
  books : List Book
  favorites : List Favorite
  exchange_requests : List ExchangeRequest
  completed_exchanges : List CompletedExchange
  next_request_id : Nat
  next_completed_id : Nat
  deriving DecidableEq

/-- The status string of an accepted request. -/
def ACCEPTED : String := "accepted"

/-- The status string of a rejected request. -/
def REJECTED : String := "rejected"

/-- The status string of a pending request. -/
def PENDING : String := "pending"

/-- `SELECT user_id FROM books WHERE id = ?` (fetchone).  The JSON
`book_id` payload value is an arbitrary integer, compared against the
stored (nonnegative) row ids. -/
def findBook (db : DB) (book_id : Int) : Option Book :=
  db.books.find? (fun b => (b.id : Int) == book_id)

/-- `SELECT owner_id, requester_id, book_id FROM exchange_requests WHERE id = ?`
(fetchone). -/
def findReq (db : DB) (request_id : Nat) : Option ExchangeRequest :=
  db.exchange_requests.find? (fun r => r.id == request_id)

/-- The duplicate-pending probe of `request_exchange`:
`SELECT id FROM exchange_requests WHERE requester_id = ? AND book_id = ?
AND status = 'pending'` followed by a fetchone truthiness test. -/
def pendingExists (db : DB) (requester_id : Nat) (book_id : Int) : Bool :=
  db.exchange_requests.any (fun r =>
    r.requester_id == requester_id && (r.book_id : Int) == book_id &&
      r.status == "pending")

/-- The possible outcomes of `POST /requestExchange` (`request_exchange`),
one constructor per return site in the handler. -/
inductive ReqExResult where
  | validationError
  | bookNotFound
  | ownBook
  | alreadyPending
  | created (request_id : Nat)
  deriving DecidableEq

/-- The HTTP status code of each `request_exchange` outcome. -/
def ReqExResult.code : ReqExResult → Nat
  | .validationError => 400
  | .bookNotFound => 404
  | .ownBook => 400
  | .alreadyPending => 409
  | .created _ => 201

/-- `request_exchange` (POST /requestExchange).  `book_id_field` is the
JSON `book_id` value: `none` models an absent or null field, and
`some 0` is falsy in Python just like `none`, so both short-circuit at the
`if not book_id` check before any database access. -/
def request_exchange (db : DB) (user_id : Nat) (book_id_field : Option Int) :
    ReqExResult × DB :=
  match book_id_field with
  | none => (.validationError, db)
  | some book_id =>
    if book_id == 0 then (.validationError, db)
    else
      match findBook db book_id with
      | none => (.bookNotFound, db)
      | some book =>
        if book.user_id == user_id then (.ownBook, db)
        else if pendingExists db user_id book_id then (.alreadyPending, db)
        else
          (.created db.next_request_id,
           { db with
               exchange_requests := db.exchange_requests ++
                 [{ id := db.next_request_id, requester_id := user_id,
                    owner_id := book.user_id, book_id := book.id,
                    status := "pending" }],
               next_request_id := db.next_request_id + 1 })

/-- The possible outcomes of `PUT /updateRequest/<id>` (`update_request`),
one constructor per return site in the handler. -/
inductive UpdateReqResult where
  | invalidStatus
  | requestNotFound
  | unauthorized
  | updated (status : String)
  deriving DecidableEq

/-- The HTTP status code of each `update_request` outcome. -/
def UpdateReqResult.code : UpdateReqResult → Nat
  | .invalidStatus => 400
  | .requestNotFound => 404
  | .unauthorized => 403
  | .updated _ => 200

/-- `status not in ['accepted', 'rejected']`: the JSON `status` value is
accepted only when it is literally one of the two decision strings
(an absent or null field, modelled as `none`, is not in the list). -/
def validDecision (status_field : Option String) : Bool :=
  match status_field with
  | none => false
  | some s => s == "accepted" || s == "rejected"

/-- The row update of `UPDATE exchange_requests SET status = ? WHERE id = ?`,
applied to a single row. -/
def setStatus (request_id : Nat) (status : String) (r : ExchangeRequest) :
    ExchangeRequest :=
  if r.id == request_id then { r with status := status } else r

/-- `update_request` (PUT /updateRequest/<request_id>).  Validates the
decision string first, then looks the request up, then checks that the
caller is the owner; on success updates the row status and, when the
decision is `accepted`, additionally inserts one completed_exchanges row,
all committed together. -/
def update_request (db : DB) (user_id request_id : Nat)
    (status_field : Option String) : UpdateReqResult × DB :=
  if !validDecision status_field then (.invalidStatus, db)
  else
    let status := status_field.getD ""
    match findReq db request_id with
    | none => (.requestNotFound, db)
    | some req =>
      if req.owner_id != user_id then (.unauthorized, db)
      else
        let db1 := { db with
          exchange_requests :=
            db.exchange_requests.map (setStatus request_id status) }
        if status == "accepted" then
          (.updated status,
           { db1 with
               completed_exchanges := db1.completed_exchanges ++
                 [{ id := db.next_completed_id, user1_id := req.owner_id,
                    user2_id := req.requester_id, book_id := req.book_id }],
               next_completed_id := db.next_completed_id + 1 })
        else (.updated status, db1)

/-- The possible outcomes of `DELETE /removeFavorite/<fav_id>`. -/
inductive RemoveFavResult where
  | favNotFound
  | removed
  deriving DecidableEq

/-- The HTTP status code of each `remove_favorite` outcome. -/
def RemoveFavResult.code : RemoveFavResult → Nat
  | .favNotFound => 404
  | .removed => 200

/-- `remove_favorite` (DELETE /removeFavorite/<fav_id>):
`DELETE FROM favorites WHERE id = ? AND user_id = ?`; a rowcount of zero
yields 404 with nothing committed. -/
def remove_favorite (db : DB) (user_id fav_id : Nat) : RemoveFavResult × DB :=
  let remaining := db.favorites.filter
    (fun f => !(f.id == fav_id && f.user_id == user_id))
  if remaining.length == db.favorites.length then (.favNotFound, db)
  else (.removed, { db with favorites := remaining })

/-- Python's `str.lower()` on one code point, in the part observable
through `search_books`: ASCII A-Z lower to a-z, and U+212A (the Kelvin
sign, 8490) is the single non-ASCII code point whose Python lowercase is
an ASCII character, namely k (107).  Every other code point Python
lowers has a lowercase that is again non-ASCII (U+0130, the one
length-changing case, lowers to i followed by the non-ASCII combining
dot U+0307); the catalog below is pure ASCII, so a query containing any
such character matches no catalog entry whether lowered or not, and
mapping it to itself is observationally equivalent for the substring
matching of `search_books`. -/
def lowerChar (c : Char) : Char :=
  if 65 ≤ c.toNat ∧ c.toNat ≤ 90 then Char.ofNat (c.toNat + 32)
  else if c.toNat = 8490 then Char.ofNat 107
  else c

/-- `str.lower()` on a whole string (per code point; see `lowerChar` for
why Python's only length-changing lowercase does not need modelling). -/
def lowerStr (s : String) : String := ⟨s.data.map lowerChar⟩

/-- The exact whitespace set of Python's `str.isspace()`, which is what
`str.strip()` removes: U+0009-U+000D, U+001C-U+001F, the space U+0020,
U+0085, U+00A0, U+1680, U+2000-U+200A, U+2028, U+2029, U+202F, U+205F
and U+3000. -/
def isSpaceChar (c : Char) : Bool :=
  let n := c.toNat
  (9 ≤ n && n ≤ 13) || (28 ≤ n && n ≤ 32) || n == 133 || n == 160 ||
    n == 5760 || (8192 ≤ n && n ≤ 8202) || n == 8232 || n == 8233 ||
    n == 8239 || n == 8287 || n == 12288

/-- Python's `str.strip()`: drop leading and trailing whitespace. -/
def pyStrip (s : String) : String :=
  ⟨((s.data.dropWhile isSpaceChar).reverse.dropWhile isSpaceChar).reverse⟩

/-- Whether `needle` occurs at the very start of `hay`. -/
def leadOf : List Char → List Char → Bool
  | [], _ => true
  | _ :: _, [] => false
  | a :: as, b :: bs => a == b && leadOf as bs

/-- Python's substring test `needle in hay` (contiguous occurrence). -/
def pyIn (needle : List Char) : List Char → Bool
  | [] => needle.isEmpty
  | b :: bs => leadOf needle (b :: bs) || pyIn needle bs

/-- An entry of the hard-coded `all_books` mock catalog in `search_books`.
The cover, description and rating fields are omitted (rating is a float;
none of them takes part in matching). -/
structure CatalogBook where
  id : String
  title : String
  author : String
  isbn : String
  deriving DecidableEq

/-- The fixed eight-entry catalog of `search_books`. -/
def all_books : List CatalogBook :=
  [ { id := "book1", title := "Harry Potter and the Philosopher\x27s Stone",
      author := "J.K. Rowling", isbn := "9780439708180" },
    { id := "book2", title := "To Kill a Mockingbird",
      author := "Harper Lee", isbn := "9780061120084" },
    { id := "book3", title := "1984",
      author := "George Orwell", isbn := "9780451524935" },
    { id := "book4", title := "Pride and Prejudice",
      author := "Jane Austen", isbn := "9780141439518" },
    { id := "book5", title := "The Great Gatsby",
      author := "F. Scott Fitzgerald", isbn := "9780743273565" },
    { id := "book6", title := "The Hobbit",
      author := "J.R.R. Tolkien", isbn := "9780547928227" },
    { id := "book7", title := "The Catcher in the Rye",
      author := "J.D. Salinger", isbn := "9780316769174" },
    { id := "book8", title := "Lord of the Flies",
      author := "William Golding", isbn := "9780399501487" } ]

/-- The possible outcomes of `GET /search`. -/
inductive SearchResult where
  | queryRequired
  | results (books : List CatalogBook)
  deriving DecidableEq

/-- The HTTP status code of each `search_books` outcome. -/
def SearchResult.code : SearchResult → Nat
  | .queryRequired => 400
  | .results _ => 200

/-- The filter predicate of `search_books`:
`query in b['title'].lower() or query in b['author'].lower()`
(the query is already stripped and lowercased by the caller). -/
def matchesQuery (query : String) (b : CatalogBook) : Bool :=
  pyIn query.data (lowerStr b.title).data ||
    pyIn query.data (lowerStr b.author).data

/-- `search_books` (GET /search?q=...): the raw query is stripped and
lowercased; an empty result of that normalization is rejected with 400;
otherwise the catalog is filtered by case-insensitive substring match on
title or author, falling back to the first four catalog entries when
nothing matches. -/
def search_books (q : String) : SearchResult :=
  let query := lowerStr (pyStrip q)
  if query.data.isEmpty then .queryRequired
  else
    let filtered := all_books.filter (matchesQuery query)
    if filtered.isEmpty then .results (all_books.take 4)
    else .results filtered

/-- The value stored in `active_tokens` for one token (the `username`
field is omitted: token resolution never reads it).  `expires` is an
abstract clock reading. -/
structure TokenData where
  user_id : Nat
  expires : Nat
  deriving DecidableEq

/-- The process-wide `active_tokens` dict, keyed by the token string. -/
abbrev Registry := List (String × TokenData)

/-- `active_tokens.get(token)`. -/
def lookupTok (reg : Registry) (t : String) : Option TokenData :=
  (List.find? (fun p => p.fst == t) reg).map (fun p => p.snd)

/-- `del active_tokens[token]`. -/
def removeTok (reg : Registry) (t : String) : Registry :=
  List.filter (fun p => !(p.fst == t)) reg

/-- `get_user_from_token`: a missing or empty token resolves to nothing;
an unknown token resolves to nothing; an expired entry is deleted as a
side effect and resolves to nothing; otherwise the bound user id is
returned.  `now` is the current clock reading (`datetime.now()`). -/
def get_user_from_token (reg : Registry) (now : Nat) (token : Option String) :
    Option Nat × Registry :=
  match token with
  | none => (none, reg)
  | some t =>
    if t.data.isEmpty then (none, reg)
    else
      match lookupTok reg t with
      | none => (none, reg)
      | some d =>
        if d.expires < now then (none, removeTok reg t)
        else (some d.user_id, reg)

/-- `logout` (POST /logout), restricted to its registry effect: delete the
entry if the token is present, leave the registry unchanged otherwise. -/
def logout (reg : Registry) (t : String) : Registry :=
  if (lookupTok reg t).isSome then removeTok reg t else reg

/-! Concrete sample states used to instantiate the theorems below. -/

/-- A book owned by user 1. -/
def duneBook : Book :=
  { id := 1, user_id := 1, title := "Dune", author := "Frank Herbert" }

/-- A database holding only `duneBook`. -/
def bookOnlyDB : DB :=
  { books := [duneBook], favorites := [], exchange_requests := [],
    completed_exchanges := [], next_request_id := 1, next_completed_id := 1 }

/-- A pending request by user 2 for book 1 (owned by user 1). -/
def sampleReq : ExchangeRequest :=
  { id := 1, requester_id := 2, owner_id := 1, book_id := 1,
    status := "pending" }

/-- A database holding `duneBook` and the pending `sampleReq`. -/
def pendingDB : DB :=
  { books := [duneBook], favorites := [], exchange_requests := [sampleReq],
    completed_exchanges := [], next_request_id := 2, next_completed_id := 1 }

/-- `pendingDB` after the request has been decided (accepted). -/
def decidedDB : DB :=
  { books := [duneBook], favorites := [],
    exchange_requests :=
      [{ id := 1, requester_id := 2, owner_id := 1, book_id := 1,
         status := "accepted" }],
    completed_exchanges :=
      [{ id := 1, user1_id := 1, user2_id := 2, book_id := 1 }],
    next_request_id := 2, next_completed_id := 2 }

/-- A favorite of user 1. -/
def duneFav : Favorite :=
  { id := 1, user_id := 1, book_title := "Dune",
    book_author := "Frank Herbert" }

/-- A favorite of user 2. -/
def hobbitFav : Favorite :=
  { id := 2, user_id := 2, book_title := "The Hobbit",
    book_author := "J.R.R. Tolkien" }

/-- A database with one favorite per user for users 1 and 2. -/
def favDB : DB :=
  { books := [], favorites := [duneFav, hobbitFav],
    exchange_requests := [], completed_exchanges := [],
    next_request_id := 1, next_completed_id := 1 }

/-- A sample token string. -/
def tokStr : String := "tok"

/-- A second token string, distinct from `tokStr`. -/
def tokStr2 : String := "other"

/-- A registry binding `tokStr` to user 7 with expiry at clock 100. -/
def tokReg : Registry := [(tokStr, { user_id := 7, expires := 100 })]

/-- The sample query "harry". -/
def harryQ : String := "harry"

/-- A query matching no catalog entry. -/
def zzzQ : String := "zzz_no_match"

/-- A whitespace-only, non-empty query. -/
def spaceQ : String := " "

/-- The query "harry" followed by a no-break space U+00A0, which
Python's `str.strip()` removes. -/
def nbspHarryQ : String := "harry\u00A0"

/-- A query consisting of the single Kelvin sign U+212A, which Python's
`str.lower()` maps to the ASCII letter k. -/
def kelvinQ : String := "\u212A"

/-! Helper lemmas about the row update of `update_request`. -/

theorem setStatus_id_eq (request_id : Nat) (s : String) (r : ExchangeRequest) :
    (setStatus request_id s r).id = r.id := by
  unfold setStatus; split <;> rfl

theorem find?_map_setStatus (l : List ExchangeRequest) (rid : Nat)
    (s : String) :
    (l.map (setStatus rid s)).find? (fun r => r.id == rid) =
      (l.find? (fun r => r.id == rid)).map (setStatus rid s) := by
  induction l with
  | nil => rfl
  | cons a t ih =>
    simp only [List.map_cons]
    cases h : (a.id == rid) with
    | false =>
      rw [List.find?_cons_of_neg, List.find?_cons_of_neg, ih]
      · simp [h]
      · simp [setStatus_id_eq, h]
    | true =>
      rw [List.find?_cons_of_pos, List.find?_cons_of_pos]
      · simp
      · simp [h]
      · simp [setStatus_id_eq, h]

/-- C10: `update_request` validates the decision value before looking up
the request: any status value outside {accepted, rejected} (including
"pending" or an absent/null field) yields the 400 invalid-status response
for every database state, request id and caller, and the database is
unchanged. -/
theorem c10_invalid_decision_rejected_first (db : DB) (uid rid : Nat)
    (s : Option String) (h1 : s ≠ some ACCEPTED) (h2 : s ≠ some REJECTED) :
    update_request db uid rid s = (.invalidStatus, db) ∧
    UpdateReqResult.code .invalidStatus = 400 := by
  have hvd : validDecision s = false := by
    cases s with
    | none => rfl
    | some str =>
      have ha : str ≠ "accepted" := fun hh => h1 (by simp [ACCEPTED, hh])
      have hr : str ≠ "rejected" := fun hh => h2 (by simp [REJECTED, hh])
      simp [validDecision, ha, hr]
  exact ⟨by simp [update_request, hvd], rfl⟩

theorem c10_invalid_decision_rejected_first_witness :
    some PENDING ≠ some ACCEPTED ∧ some PENDING ≠ some REJECTED ∧
    (update_request pendingDB 1 1 (some PENDING) =
        (.invalidStatus, pendingDB) ∧
      UpdateReqResult.code .invalidStatus = 400) :=
  ⟨by decide, by decide,
   c10_invalid_decision_rejected_first pendingDB 1 1 (some PENDING)
     (by decide) (by decide)⟩

/-- C8: a `request_exchange` call whose book_id field is absent, null or
the falsy integer 0 returns the 400 validation error for every database
state (so the book store is never consulted) and leaves the database
unchanged; in particular book_id = 0 yields 400, not the 404 reserved for
a nonexistent positive book id. -/
theorem c8_falsy_book_id_validation (db : DB) (uid : Nat) (f : Option Int)
    (h : f = none ∨ f = some 0) :
    request_exchange db uid f = (.validationError, db) ∧
    ReqExResult.code .validationError = 400 ∧
    ReqExResult.code .bookNotFound = 404 := by
  rcases h with h | h <;> subst h <;> exact ⟨rfl, rfl, rfl⟩

theorem c8_falsy_book_id_validation_witness :
    ((some (0 : Int)) = none ∨ (some (0 : Int)) = some 0) ∧
    (request_exchange bookOnlyDB 2 (some (0 : Int)) =
        (.validationError, bookOnlyDB) ∧
      ReqExResult.code .validationError = 400 ∧
      ReqExResult.code .bookNotFound = 404) :=
  ⟨Or.inr rfl,
   c8_falsy_book_id_validation bookOnlyDB 2 (some (0 : Int)) (Or.inr rfl)⟩

theorem update_request_owner_accept (db : DB) (uid rid : Nat)
    (req : ExchangeRequest) (hfind : findReq db rid = some req)
    (howner : req.owner_id = uid) :
    update_request db uid rid (some ACCEPTED) =
      (.updated ACCEPTED,
       { db with
           exchange_requests :=
             db.exchange_requests.map (setStatus rid ACCEPTED),
           completed_exchanges := db.completed_exchanges ++
             [{ id := db.next_completed_id, user1_id := req.owner_id,
                user2_id := req.requester_id, book_id := req.book_id }],
           next_completed_id := db.next_completed_id + 1 }) := by
  subst howner
  have hvd : validDecision (some "accepted") = true := rfl
  simp [update_request, hvd, hfind, ACCEPTED]

theorem update_request_owner_reject (db : DB) (uid rid : Nat)
    (req : ExchangeRequest) (hfind : findReq db rid = some req)
    (howner : req.owner_id = uid) :
    update_request db uid rid (some REJECTED) =
      (.updated REJECTED,
       { db with
           exchange_requests :=
             db.exchange_requests.map (setStatus rid REJECTED) }) := by
  subst howner
  have hvd : validDecision (some "rejected") = true := rfl
  simp [update_request, hvd, hfind, REJECTED]

/-- C2: for every existing request whose decider is the request's owner,
deciding `accepted` returns 200, sets the stored request's status to
`accepted` and appends exactly one completed_exchanges row with
user1 = owner, user2 = requester, book = the request's book, both effects
landing in the same resulting state (the single commit); deciding
`rejected` returns 200, sets the status to `rejected` and leaves
completed_exchanges unchanged. -/
theorem c2_decide_request_effects (db : DB) (uid rid : Nat)
    (req : ExchangeRequest) (hfind : findReq db rid = some req)
    (howner : req.owner_id = uid) :
    ((update_request db uid rid (some ACCEPTED)).fst =
        .updated ACCEPTED ∧
      findReq (update_request db uid rid (some ACCEPTED)).snd rid =
        some { req with status := ACCEPTED } ∧
      (update_request db uid rid (some ACCEPTED)).snd.completed_exchanges =
        db.completed_exchanges ++
          [{ id := db.next_completed_id, user1_id := uid,
             user2_id := req.requester_id, book_id := req.book_id }]) ∧
    ((update_request db uid rid (some REJECTED)).fst =
        .updated REJECTED ∧
      findReq (update_request db uid rid (some REJECTED)).snd rid =
        some { req with status := REJECTED } ∧
      (update_request db uid rid (some REJECTED)).snd.completed_exchanges =
        db.completed_exchanges) := by
  have hfind2 : List.find? (fun r => r.id == rid) db.exchange_requests =
      some req := hfind
  have hid : (req.id == rid) = true := by
    have h := List.find?_some hfind2
    simpa using h
  have hset : ∀ s, setStatus rid s req = { req with status := s } := by
    intro s; unfold setStatus; simp [hid]
  rw [update_request_owner_accept db uid rid req hfind howner,
      update_request_owner_reject db uid rid req hfind howner]
  refine ⟨⟨rfl, ?_, by simp [howner]⟩, rfl, ?_, rfl⟩
  · show List.find? (fun r => r.id == rid)
        (db.exchange_requests.map (setStatus rid ACCEPTED)) =
      some { req with status := ACCEPTED }
    rw [find?_map_setStatus, hfind2]
    simp [hset]
  · show List.find? (fun r => r.id == rid)
        (db.exchange_requests.map (setStatus rid REJECTED)) =
      some { req with status := REJECTED }
    rw [find?_map_setStatus, hfind2]
    simp [hset]

theorem c2_decide_request_effects_witness :
    findReq pendingDB 1 = some sampleReq ∧ sampleReq.owner_id = 1 ∧
    ((((update_request pendingDB 1 1 (some ACCEPTED)).fst =
        .updated ACCEPTED ∧
      findReq (update_request pendingDB 1 1 (some ACCEPTED)).snd 1 =
        some { sampleReq with status := ACCEPTED } ∧
      (update_request pendingDB 1 1 (some ACCEPTED)).snd.completed_exchanges =
        pendingDB.completed_exchanges ++
          [{ id := pendingDB.next_completed_id, user1_id := 1,
             user2_id := sampleReq.requester_id,
             book_id := sampleReq.book_id }]) ∧
    ((update_request pendingDB 1 1 (some REJECTED)).fst =
        .updated REJECTED ∧
      findReq (update_request pendingDB 1 1 (some REJECTED)).snd 1 =
        some { sampleReq with status := REJECTED } ∧
      (update_request pendingDB 1 1 (some REJECTED)).snd.completed_exchanges =
        pendingDB.completed_exchanges))) :=
  ⟨rfl, rfl, c2_decide_request_effects pendingDB 1 1 sampleReq rfl rfl⟩

/-- C4: with a valid decision value, `update_request` by any caller other
than the request's owner fails with 403 Unauthorized and leaves the whole
database (status and completed_exchanges included) unchanged; for a
request id that matches no row it fails with 404 and changes nothing. -/
theorem c4_decide_request_authorization (db : DB) (uid rid : Nat)
    (s : Option String) (hvd : validDecision s = true) :
    (∀ req, findReq db rid = some req → req.owner_id ≠ uid →
       update_request db uid rid s = (.unauthorized, db)) ∧
    (findReq db rid = none →
       update_request db uid rid s = (.requestNotFound, db)) ∧
    UpdateReqResult.code .unauthorized = 403 ∧
    UpdateReqResult.code .requestNotFound = 404 := by
  refine ⟨?_, ?_, rfl, rfl⟩
  · intro req hf hne
    simp [update_request, hvd, hf, hne]
  · intro hf
    simp [update_request, hvd, hf]

theorem c4_decide_request_authorization_witness :
    validDecision (some ACCEPTED) = true ∧
    findReq pendingDB 1 = some sampleReq ∧ sampleReq.owner_id ≠ 2 ∧
    update_request pendingDB 2 1 (some ACCEPTED) =
      (.unauthorized, pendingDB) ∧
    findReq pendingDB 99 = none ∧
    update_request pendingDB 2 99 (some ACCEPTED) =
      (.requestNotFound, pendingDB) :=
  ⟨rfl, rfl, by decide,
   (c4_decide_request_authorization pendingDB 2 1 (some ACCEPTED) rfl).1
     sampleReq rfl (by decide),
   rfl,
   (c4_decide_request_authorization pendingDB 2 99 (some ACCEPTED) rfl).2.1
     rfl⟩

/-- C5: `create_request` on an existing book owned by the requester fails
with 400 (the InvalidOperation "Cannot request your own book") and leaves
the database unchanged; a book id matching no row fails with 404; and a
successful creation records the book's current owner as the new request's
owner_id, in a single appended pending row. -/
theorem c5_create_request_book_checks (db : DB) (uid : Nat) (bid : Int)
    (hbid : bid ≠ 0) :
    (∀ b, findBook db bid = some b → b.user_id = uid →
       request_exchange db uid (some bid) = (.ownBook, db)) ∧
    (findBook db bid = none →
       request_exchange db uid (some bid) = (.bookNotFound, db)) ∧
    (∀ b, findBook db bid = some b → b.user_id ≠ uid →
       pendingExists db uid bid = false →
       (request_exchange db uid (some bid)).fst =
         .created db.next_request_id ∧
       (request_exchange db uid (some bid)).snd.exchange_requests =
         db.exchange_requests ++
           [{ id := db.next_request_id, requester_id := uid,
              owner_id := b.user_id, book_id := b.id,
              status := PENDING }]) ∧
    ReqExResult.code .ownBook = 400 ∧
    ReqExResult.code .bookNotFound = 404 := by
  refine ⟨?_, ?_, ?_, rfl, rfl⟩
  · intro b hf hb
    simp [request_exchange, hbid, hf, hb]
  · intro hf
    simp [request_exchange, hbid, hf]
  · intro b hf hb hpe
    simp [request_exchange, hbid, hf, hb, hpe, PENDING]

theorem c5_create_request_book_checks_witness :
    (1 : Int) ≠ 0 ∧ (5 : Int) ≠ 0 ∧
    findBook bookOnlyDB 1 = some duneBook ∧ duneBook.user_id = 1 ∧
    request_exchange bookOnlyDB 1 (some 1) = (.ownBook, bookOnlyDB) ∧
    findBook bookOnlyDB 5 = none ∧
    request_exchange bookOnlyDB 1 (some 5) = (.bookNotFound, bookOnlyDB) ∧
    duneBook.user_id ≠ 2 ∧ pendingExists bookOnlyDB 2 1 = false ∧
    ((request_exchange bookOnlyDB 2 (some 1)).fst =
       .created bookOnlyDB.next_request_id ∧
     (request_exchange bookOnlyDB 2 (some 1)).snd.exchange_requests =
       bookOnlyDB.exchange_requests ++
         [{ id := bookOnlyDB.next_request_id, requester_id := 2,
            owner_id := duneBook.user_id, book_id := duneBook.id,
            status := PENDING }]) :=
  ⟨by decide, by decide, rfl, rfl,
   (c5_create_request_book_checks bookOnlyDB 1 1 (by decide)).1
     duneBook rfl rfl,
   rfl,
   (c5_create_request_book_checks bookOnlyDB 1 5 (by decide)).2.1 rfl,
   by decide, rfl,
   (c5_create_request_book_checks bookOnlyDB 2 1 (by decide)).2.2.1
     duneBook rfl (by decide) rfl⟩

/-- C3: while a pending request by the same requester for the same book
exists, a second `create_request` fails with 409 Conflict and appends no
row; once every request for that (requester, book) pair has been decided
(status no longer pending), a new `create_request` for the pair succeeds
and appends a fresh pending row. -/
theorem c3_duplicate_pending_guard (db : DB) (uid : Nat) (b : Book)
    (bid : Int) (hbid : bid ≠ 0) (hbook : findBook db bid = some b)
    (hown : b.user_id ≠ uid) :
    (pendingExists db uid bid = true →
       request_exchange db uid (some bid) = (.alreadyPending, db) ∧
       ReqExResult.code .alreadyPending = 409) ∧
    ((∀ r ∈ db.exchange_requests, r.requester_id = uid →
         (r.book_id : Int) = bid → r.status ≠ PENDING) →
       (request_exchange db uid (some bid)).fst =
         .created db.next_request_id ∧
       (request_exchange db uid (some bid)).snd.exchange_requests =
         db.exchange_requests ++
           [{ id := db.next_request_id, requester_id := uid,
              owner_id := b.user_id, book_id := b.id,
              status := PENDING }]) := by
  constructor
  · intro hpe
    exact ⟨by simp [request_exchange, hbid, hbook, hown, hpe], rfl⟩
  · intro hdecided
    have hpe : pendingExists db uid bid = false := by
      unfold pendingExists
      rw [List.any_eq_false]
      intro r hr
      intro hcontra
      rcases Bool.and_eq_true_iff.mp hcontra with ⟨hab, hc⟩
      rcases Bool.and_eq_true_iff.mp hab with ⟨ha, hb2⟩
      exact hdecided r hr (by simpa using ha) (by simpa using hb2)
        (by simpa [PENDING] using hc)
    simp [request_exchange, hbid, hbook, hown, hpe, PENDING]

theorem c3_duplicate_pending_guard_witness :
    (1 : Int) ≠ 0 ∧ findBook pendingDB 1 = some duneBook ∧
    duneBook.user_id ≠ 2 ∧ pendingExists pendingDB 2 1 = true ∧
    (request_exchange pendingDB 2 (some 1) = (.alreadyPending, pendingDB) ∧
      ReqExResult.code .alreadyPending = 409) ∧
    findBook decidedDB 1 = some duneBook ∧
    (∀ r ∈ decidedDB.exchange_requests, r.requester_id = 2 →
        (r.book_id : Int) = 1 → r.status ≠ PENDING) ∧
    ((request_exchange decidedDB 2 (some 1)).fst =
       .created decidedDB.next_request_id ∧
     (request_exchange decidedDB 2 (some 1)).snd.exchange_requests =
       decidedDB.exchange_requests ++
         [{ id := decidedDB.next_request_id, requester_id := 2,
            owner_id := duneBook.user_id, book_id := duneBook.id,
            status := PENDING }]) :=
  ⟨by decide, rfl, by decide, rfl,
   (c3_duplicate_pending_guard pendingDB 2 duneBook 1 (by decide) rfl
       (by decide)).1 rfl,
   rfl, by decide,
   (c3_duplicate_pending_guard decidedDB 2 duneBook 1 (by decide) rfl
       (by decide)).2 (by decide)⟩

/-- C9: `remove_favorite` is scoped to the caller: the delete matches a
row only when both the favorite id and the caller id agree, so a favorite
id belonging to another user (or to no row) yields 404 with the whole
database unchanged; a 200 result implies a row of the caller with that id
existed; and rows of other users are never deleted. -/
theorem c9_remove_favorite_scoped (db : DB) (uid fid : Nat) :
    ((∀ f ∈ db.favorites, ¬(f.id = fid ∧ f.user_id = uid)) →
       remove_favorite db uid fid = (.favNotFound, db) ∧
       RemoveFavResult.code .favNotFound = 404) ∧
    ((remove_favorite db uid fid).fst = .removed →
       ∃ f ∈ db.favorites, f.id = fid ∧ f.user_id = uid) ∧
    (∀ f ∈ db.favorites, f.user_id ≠ uid →
       f ∈ (remove_favorite db uid fid).snd.favorites) := by
  have hnotfound : (∀ f ∈ db.favorites, ¬(f.id = fid ∧ f.user_id = uid)) →
      remove_favorite db uid fid = (.favNotFound, db) := by
    intro h
    have hall : ∀ f ∈ db.favorites,
        (!(f.id == fid && f.user_id == uid)) = true := by
      intro f hf
      have hng := h f hf
      by_cases h1 : f.id = fid
      · by_cases h2 : f.user_id = uid
        · exact absurd ⟨h1, h2⟩ hng
        · simp [h2]
      · simp [h1]
    have hfil : db.favorites.filter
        (fun f => !(f.id == fid && f.user_id == uid)) = db.favorites :=
      List.filter_eq_self.mpr hall
    simp [remove_favorite, hfil]
    intro x hx h1 h2
    exact h x hx ⟨h1, h2⟩
  refine ⟨fun h => ⟨hnotfound h, rfl⟩, ?_, ?_⟩
  · intro hrem
    by_cases hex : ∃ f ∈ db.favorites, f.id = fid ∧ f.user_id = uid
    · exact hex
    · exfalso
      have hall : ∀ f ∈ db.favorites, ¬(f.id = fid ∧ f.user_id = uid) :=
        fun f hf hP => hex ⟨f, hf, hP⟩
      rw [hnotfound hall] at hrem
      simp at hrem
  · intro f hf hne
    simp only [remove_favorite]
    split
    · exact hf
    · simp only [List.mem_filter]
      exact ⟨hf, by simp [hne]⟩

theorem c9_remove_favorite_scoped_witness :
    (∀ f ∈ favDB.favorites, ¬(f.id = 2 ∧ f.user_id = 1)) ∧
    (remove_favorite favDB 1 2 = (.favNotFound, favDB) ∧
      RemoveFavResult.code .favNotFound = 404) ∧
    (remove_favorite favDB 1 1).fst = .removed ∧
    (∃ f ∈ favDB.favorites, f.id = 1 ∧ f.user_id = 1) ∧
    hobbitFav ∈ favDB.favorites ∧ hobbitFav.user_id ≠ 1 ∧
    hobbitFav ∈ (remove_favorite favDB 1 1).snd.favorites :=
  ⟨by decide,
   (c9_remove_favorite_scoped favDB 1 2).1 (by decide),
   rfl,
   (c9_remove_favorite_scoped favDB 1 1).2.1 rfl,
   by decide, by decide,
   (c9_remove_favorite_scoped favDB 1 1).2.2 hobbitFav (by decide)
     (by decide)⟩

/-- C6 counterexample: the one-character query " " is non-empty and is a
case-insensitive substring of every catalog title, so the claim as stated
demands the matching entries; `search_books` instead strips the query to
emptiness and fails with the 400 query-required error. -/
theorem c6_counterexample_whitespace_query :
    spaceQ ≠ "" ∧
    all_books.filter (matchesQuery spaceQ) ≠ [] ∧
    search_books spaceQ = .queryRequired ∧
    search_books spaceQ ≠
      .results (all_books.filter (matchesQuery spaceQ)) :=
  ⟨by decide, by decide, rfl, by decide⟩

/-- C6 (amended): the query is first stripped of surrounding whitespace
and lowercased, and a query that normalizes to the empty string fails
with 400; for every query whose normalized form is non-empty, if at least
one catalog entry's title or author contains it then exactly the matching
entries are returned, otherwise the first four catalog entries are
returned; either way the response is 200 with a non-empty list. -/
theorem c6_search_filter_or_fallback (q : String) :
    ((lowerStr (pyStrip q)).data = [] →
       search_books q = .queryRequired ∧
       SearchResult.code .queryRequired = 400) ∧
    ((lowerStr (pyStrip q)).data ≠ [] →
    ((∃ b ∈ all_books,
        matchesQuery (lowerStr (pyStrip q)) b = true) →
       search_books q = .results
         (all_books.filter (matchesQuery (lowerStr (pyStrip q))))) ∧
    ((∀ b ∈ all_books,
        matchesQuery (lowerStr (pyStrip q)) b = false) →
       search_books q = .results (all_books.take 4)) ∧
    (∀ l, search_books q = .results l → l ≠ []) ∧
    SearchResult.code (search_books q) = 200) := by
  constructor
  · intro hemp
    have h0 : (lowerStr (pyStrip q)).data.isEmpty = true := by
      rw [hemp]; rfl
    exact ⟨by simp [search_books, h0], rfl⟩
  intro hne
  have h0 : (lowerStr (pyStrip q)).data.isEmpty = false := by
    cases hq : (lowerStr (pyStrip q)).data with
    | nil => exact absurd hq hne
    | cons a t => rfl
  have hstep : search_books q =
      (if (all_books.filter (matchesQuery (lowerStr (pyStrip q)))).isEmpty
       then SearchResult.results (all_books.take 4)
       else SearchResult.results
         (all_books.filter (matchesQuery (lowerStr (pyStrip q))))) := by
    simp [search_books, h0]
  refine ⟨?_, ?_, ?_, ?_⟩
  · intro hex
    obtain ⟨b, hb, hm⟩ := hex
    have hfil : (all_books.filter
        (matchesQuery (lowerStr (pyStrip q)))).isEmpty = false := by
      have hmem : b ∈ all_books.filter (matchesQuery (lowerStr (pyStrip q))) :=
        List.mem_filter.mpr ⟨hb, hm⟩
      cases hq : all_books.filter (matchesQuery (lowerStr (pyStrip q))) with
      | nil => rw [hq] at hmem; simp at hmem
      | cons x xs => rfl
    rw [hstep, hfil]
    rfl
  · intro hall
    have hfil : all_books.filter (matchesQuery (lowerStr (pyStrip q))) = [] :=
      List.filter_eq_nil_iff.mpr (by
        intro b hb
        simp [hall b hb])
    rw [hstep, hfil]
    rfl
  · intro l hl
    rw [hstep] at hl
    cases hfil : (all_books.filter
        (matchesQuery (lowerStr (pyStrip q)))).isEmpty with
    | true =>
      rw [hfil] at hl
      simp only [if_true] at hl
      cases hl
      decide
    | false =>
      rw [hfil] at hl
      simp only [Bool.false_eq_true, if_false] at hl
      cases hl
      intro hnil
      rw [hnil] at hfil
      simp at hfil
  · rw [hstep]
    cases (all_books.filter (matchesQuery (lowerStr (pyStrip q)))).isEmpty <;>
      rfl

theorem c6_search_filter_or_fallback_witness :
    (lowerStr (pyStrip spaceQ)).data = [] ∧
    (search_books spaceQ = .queryRequired ∧
      SearchResult.code .queryRequired = 400) ∧
    (lowerStr (pyStrip harryQ)).data ≠ [] ∧
    (∃ b ∈ all_books, matchesQuery (lowerStr (pyStrip harryQ)) b = true) ∧
    search_books harryQ = .results
      (all_books.filter (matchesQuery (lowerStr (pyStrip harryQ)))) ∧
    (lowerStr (pyStrip zzzQ)).data ≠ [] ∧
    (∀ b ∈ all_books, matchesQuery (lowerStr (pyStrip zzzQ)) b = false) ∧
    search_books zzzQ = .results (all_books.take 4) ∧
    (lowerStr (pyStrip nbspHarryQ)).data ≠ [] ∧
    (∃ b ∈ all_books,
      matchesQuery (lowerStr (pyStrip nbspHarryQ)) b = true) ∧
    search_books nbspHarryQ = .results
      (all_books.filter (matchesQuery (lowerStr (pyStrip nbspHarryQ)))) ∧
    (lowerStr (pyStrip kelvinQ)).data ≠ [] ∧
    (∃ b ∈ all_books, matchesQuery (lowerStr (pyStrip kelvinQ)) b = true) ∧
    search_books kelvinQ = .results
      (all_books.filter (matchesQuery (lowerStr (pyStrip kelvinQ)))) :=
  ⟨by decide,
   (c6_search_filter_or_fallback spaceQ).1 (by decide),
   by decide, by decide,
   ((c6_search_filter_or_fallback harryQ).2 (by decide)).1 (by decide),
   by decide, by decide,
   ((c6_search_filter_or_fallback zzzQ).2 (by decide)).2.1 (by decide),
   by decide, by decide,
   ((c6_search_filter_or_fallback nbspHarryQ).2 (by decide)).1 (by decide),
   by decide, by decide,
   ((c6_search_filter_or_fallback kelvinQ).2 (by decide)).1 (by decide)⟩

/-! Helper lemmas about the token registry. -/

theorem lookupTok_removeTok_self (reg : Registry) (t : String) :
    lookupTok (removeTok reg t) t = none := by
  induction reg with
  | nil => rfl
  | cons p l ih =>
    cases hp : (p.fst == t) with
    | true =>
      simp only [removeTok, List.filter] at ih ⊢
      rw [hp]
      exact ih
    | false =>
      simp only [removeTok, List.filter] at ih ⊢
      rw [hp]
      simp only [lookupTok, List.find?, hp] at ih ⊢
      exact ih

theorem lookupTok_eq_none_iff (reg : Registry) (t : String) :
    lookupTok reg t = none ↔ ∀ p ∈ reg, (p.fst == t) = false := by
  constructor
  · intro h p hp
    have hf : List.find? (fun p => p.fst == t) reg = none :=
      Option.map_eq_none'.mp h
    have := List.find?_eq_none.mp hf p hp
    simpa using this
  · intro h
    have hf : List.find? (fun p => p.fst == t) reg = none :=
      List.find?_eq_none.mpr (by intro p hp; simp [h p hp])
    simp [lookupTok, hf]

theorem lookupTok_removeTok_none (reg : Registry) (t t2 : String)
    (h : lookupTok reg t = none) :
    lookupTok (removeTok reg t2) t = none := by
  rw [lookupTok_eq_none_iff] at h ⊢
  intro p hp
  exact h p (List.mem_of_mem_filter hp)

theorem lookupTok_logout_none (reg : Registry) (t t2 : String)
    (h : lookupTok reg t = none) :
    lookupTok (logout reg t2) t = none := by
  unfold logout
  split
  · exact lookupTok_removeTok_none reg t t2 h
  · exact h

theorem get_user_of_lookup_none (reg : Registry) (t : String) (now : Nat)
    (h : lookupTok reg t = none) :
    get_user_from_token reg now (some t) = (none, reg) := by
  unfold get_user_from_token
  cases he : t.data.isEmpty with
  | true => simp [he]
  | false => simp [he, h]

theorem get_user_snd_eq (reg : Registry) (now : Nat) (t2 : String) :
    (get_user_from_token reg now (some t2)).snd = reg ∨
    (get_user_from_token reg now (some t2)).snd = removeTok reg t2 := by
  unfold get_user_from_token
  cases he : t2.data.isEmpty with
  | true => left; simp [he]
  | false =>
    cases hl : lookupTok reg t2 with
    | none => left; simp [he, hl]
    | some d =>
      by_cases hx : d.expires < now
      · right; simp [he, hl, hx]
      · left; simp [he, hl, hx]

/-- C7: a token revoked by logout resolves to no user id; a non-empty
token whose entry is expired resolves to no user id and its entry is
evicted by that resolution; and once a token is absent from the registry,
every later resolution yields no user id and neither resolution of any
token nor any further logout re-adds it — so every authenticated endpoint
rejects the token with 401 from that point on. -/
theorem c7_token_revocation_and_expiry (reg : Registry) (t tok2 : String)
    (now now2 : Nat) :
    (get_user_from_token (logout reg t) now (some t)).fst = none ∧
    (∀ d, t ≠ "" → lookupTok reg t = some d → d.expires < now →
       get_user_from_token reg now (some t) = (none, removeTok reg t) ∧
       lookupTok (removeTok reg t) t = none) ∧
    (lookupTok reg t = none →
       (get_user_from_token reg now2 (some t)).fst = none ∧
       lookupTok (get_user_from_token reg now2 (some tok2)).snd t = none ∧
       lookupTok (logout reg tok2) t = none) := by
  refine ⟨?_, ?_, ?_⟩
  · have hlg : lookupTok (logout reg t) t = none := by
      unfold logout
      split
      · exact lookupTok_removeTok_self reg t
      · rename_i hns
        exact Option.not_isSome_iff_eq_none.mp hns
    rw [get_user_of_lookup_none (logout reg t) t now hlg]
  · intro d ht hd hexp
    have htd : t.data.isEmpty = false := by
      cases t with
      | mk l =>
        cases l with
        | nil => exact absurd rfl ht
        | cons a as => rfl
    constructor
    · unfold get_user_from_token
      simp [htd, hd, hexp]
    · exact lookupTok_removeTok_self reg t
  · intro h
    refine ⟨?_, ?_, lookupTok_logout_none reg t tok2 h⟩
    · rw [get_user_of_lookup_none reg t now2 h]
    · rcases get_user_snd_eq reg now2 tok2 with h1 | h1
      · rw [h1]; exact h
      · rw [h1]; exact lookupTok_removeTok_none reg t tok2 h

theorem c7_token_revocation_and_expiry_witness :
    (get_user_from_token (logout tokReg tokStr) 200 (some tokStr)).fst =
      none ∧
    tokStr ≠ "" ∧
    lookupTok tokReg tokStr = some { user_id := 7, expires := 100 } ∧
    (100 : Nat) < 200 ∧
    (get_user_from_token tokReg 200 (some tokStr) =
        (none, removeTok tokReg tokStr) ∧
      lookupTok (removeTok tokReg tokStr) tokStr = none) ∧
    lookupTok ([] : Registry) tokStr = none ∧
    ((get_user_from_token ([] : Registry) 300 (some tokStr)).fst = none ∧
      lookupTok (get_user_from_token ([] : Registry) 300
        (some tokStr2)).snd tokStr = none ∧
      lookupTok (logout ([] : Registry) tokStr2) tokStr = none) :=
  ⟨(c7_token_revocation_and_expiry tokReg tokStr tokStr2 200 200).1,
   by decide, rfl, by decide,
   (c7_token_revocation_and_expiry tokReg tokStr tokStr2 200 200).2.1
     { user_id := 7, expires := 100 } (by decide) rfl (by decide),
   rfl,
   (c7_token_revocation_and_expiry ([] : Registry) tokStr tokStr2 300
     300).2.2 rfl⟩

/-- C1: demonstration that `update_request` has no pending-status guard.
Starting from a database with one pending request (id 1, requester 2,
owner 1, book 1), the owner's first accept succeeds and inserts one
completed_exchanges row; a second accept of the very same request
succeeds again (200) and inserts a second completed_exchanges row, and a
subsequent reject of the already-accepted request succeeds and flips the
stored status to rejected — so a request can transition more than once
and an accepted request can accumulate several CompletedExchange rows. -/
theorem c1_no_pending_guard_demonstration :
    (update_request pendingDB 1 1 (some ACCEPTED)).fst =
      .updated ACCEPTED ∧
    (update_request pendingDB 1 1
      (some ACCEPTED)).snd.completed_exchanges.length = 1 ∧
    (update_request (update_request pendingDB 1 1 (some ACCEPTED)).snd
      1 1 (some ACCEPTED)).fst = .updated ACCEPTED ∧
    (update_request (update_request pendingDB 1 1 (some ACCEPTED)).snd
      1 1 (some ACCEPTED)).snd.completed_exchanges.length = 2 ∧
    (findReq (update_request (update_request pendingDB 1 1
        (some ACCEPTED)).snd 1 1 (some REJECTED)).snd 1).map
      (fun r => r.status) = some REJECTED := by
  decide
